import Mathlib

/-!
Verification of the document-block pipeline and write-orchestration logic of
`langchain-notion-tools`.

The write orchestrator is embedded from
`src/langchain_notion_tools/tools/write.py`.  The block module
(`langchain_notion_tools.blocks`: `sanitize_blocks`, `from_text`, the block
builder helpers and the constants `ALLOWED_BLOCK_TYPES`, `MAX_BLOCKS`,
`MAX_TOTAL_TEXT_LENGTH`) is imported by the tool and exercised by
`tests/test_blocks.py`, but its source file is not part of the repository
snapshot; those definitions are modelled from the specification (§4.1, §4.2).
-/

set_option autoImplicit false

/-- A rich-text span: a run of text with an optional link, the atomic content
unit inside a block (`{"type": "text", "text": {"content": ..., "link": ...}}`). -/
structure RichTextSpan where
  content : String
  link : Option String
deriving DecidableEq, Repr

mutual

/-- A raw Notion block payload. `btype` is the `"type"` tag, `rich_text` the
span list of the type-specific payload, `checked`/`language`/`icon` the
type-specific extras (`to_do`/`code`/`callout`), and `children` the nested
block list carried by e.g. `toggle` blocks. -/
inductive RawBlock where
  | mk (btype : String) (rich_text : List RichTextSpan) (checked : Option Bool)
       (language : Option String) (icon : Option String) (children : RawBlockList)

/-- A sequence of raw blocks (the nested `children` lists and the top-level
document are both of this shape). -/
inductive RawBlockList where
  | nil
  | cons (b : RawBlock) (bs : RawBlockList)

end

/-- Modelled from the spec: the fixed allow-list of block type tags (§4.1). -/
def ALLOWED_BLOCK_TYPES : List String :=
  ["paragraph", "heading_1", "heading_2", "heading_3", "bulleted_list_item",
   "numbered_list_item", "to_do", "toggle", "callout", "quote", "code"]

/-- Modelled from the spec: maximum number of top-level blocks (§3). -/
def MAX_BLOCKS : Nat := 50

/-- Modelled from the spec: maximum cumulative rich-text length (§3). -/
def MAX_TOTAL_TEXT_LENGTH : Nat := 2000

/-- Number of blocks in a list (top level only). -/
def RawBlockList.length : RawBlockList → Nat
  | .nil => 0
  | .cons _ bs => bs.length + 1

/-- Python truthiness of a block list: non-empty. -/
def RawBlockList.isNil : RawBlockList → Bool
  | .nil => true
  | .cons _ _ => false

/-- Total content length of a span list. -/
def richTextLen (rt : List RichTextSpan) : Nat :=
  (rt.map fun s => s.content.length).sum

/-- Cumulative rich-text length of a block tree, summed recursively through
nested `children` (§4.1). -/
def textLenList : RawBlockList → Nat
  | .nil => 0
  | .cons (.mk _ rt _ _ _ ch) bs => richTextLen rt + textLenList ch + textLenList bs

/-- Whether every block in the tree (at any nesting depth) has a type in the
allow-list. -/
def allowedList : RawBlockList → Bool
  | .nil => true
  | .cons (.mk t _ _ _ _ ch) bs =>
    ALLOWED_BLOCK_TYPES.contains t && allowedList ch && allowedList bs

/-- Removal of every `link` field from every rich-text span, recursively
through nested `children` (§4.1 link-stripping policy). -/
def stripLinksList : RawBlockList → RawBlockList
  | .nil => .nil
  | .cons (.mk t rt chk lang icon ch) bs =>
    .cons (.mk t (rt.map fun s => ⟨s.content, none⟩) chk lang icon (stripLinksList ch))
      (stripLinksList bs)

/-- Whether no rich-text span in the tree carries a link. -/
def linkFreeList : RawBlockList → Bool
  | .nil => true
  | .cons (.mk _ rt _ _ _ ch) bs =>
    (rt.all fun s => s.link = none) && linkFreeList ch && linkFreeList bs

/-- Pre-order list of all block type tags in the tree. -/
def typesList : RawBlockList → List String
  | .nil => []
  | .cons (.mk t _ _ _ _ ch) bs => t :: (typesList ch ++ typesList bs)

/-- Pre-order list of all span contents in the tree. -/
def contentsList : RawBlockList → List String
  | .nil => []
  | .cons (.mk _ rt _ _ _ ch) bs =>
    (rt.map fun s => s.content) ++ contentsList ch ++ contentsList bs

/-- Pre-order list of all type-specific extras (`checked`, `language`, `icon`)
in the tree. -/
def extrasList : RawBlockList → List (Option Bool × Option String × Option String)
  | .nil => []
  | .cons (.mk _ _ chk lang icon ch) bs =>
    (chk, lang, icon) :: (extrasList ch ++ extrasList bs)

/-- Modelled from the spec: the recursive sanitization walk (§4.1).  Threads
one shared running total of rich-text length through the whole tree; rejects
any block whose type is outside the allow-list; rejects as soon as the running
total exceeds `MAX_TOTAL_TEXT_LENGTH`; strips every `link` field.  Returns the
sanitized list together with the final running total. -/
def sanitizeListAux : RawBlockList → Nat → Except String (RawBlockList × Nat)
  | .nil, total => .ok (.nil, total)
  | .cons (.mk t rt chk lang icon ch) bs, total =>
    if ALLOWED_BLOCK_TYPES.contains t then
      if total + richTextLen rt > MAX_TOTAL_TEXT_LENGTH then
        .error "Total text length exceeds the configured limit."
      else
        match sanitizeListAux ch (total + richTextLen rt) with
        | .error m => .error m
        | .ok (ch2, total2) =>
          match sanitizeListAux bs total2 with
          | .error m => .error m
          | .ok (bs2, total3) =>
            .ok (.cons (.mk t (rt.map fun s => ⟨s.content, none⟩) chk lang icon ch2) bs2, total3)
    else
      .error ("Unsupported block type: " ++ t)

/-- Modelled from the spec: `sanitize(blocks)` (§4.1); the module
`langchain_notion_tools.blocks` is absent from the repository snapshot.  Fails
(the Python code raises `NotionConfigurationError`) when the top-level count
exceeds `MAX_BLOCKS` or when the recursive walk rejects; otherwise returns the
blocks with links stripped. -/
def sanitize_blocks (blocks : RawBlockList) : Except String RawBlockList :=
  if blocks.length > MAX_BLOCKS then
    .error "Too many blocks supplied."
  else
    match sanitizeListAux blocks 0 with
    | .error m => .error m
    | .ok (out, _) => .ok out

/-- A rich-text span with the given content and no link. -/
def mkSpan (content : String) : RichTextSpan := ⟨content, none⟩

/-- Modelled from the spec: the `paragraph(text)` builder helper (§4.1). -/
def paragraphB (text : String) : RawBlock := .mk "paragraph" [mkSpan text] none none none .nil

/-- Modelled from the spec: the `heading_1(text)` builder helper (§4.1). -/
def heading1B (text : String) : RawBlock := .mk "heading_1" [mkSpan text] none none none .nil

/-- Modelled from the spec: the `heading_2(text)` builder helper (§4.1). -/
def heading2B (text : String) : RawBlock := .mk "heading_2" [mkSpan text] none none none .nil

/-- Modelled from the spec: the `heading_3(text)` builder helper (§4.1). -/
def heading3B (text : String) : RawBlock := .mk "heading_3" [mkSpan text] none none none .nil

/-- Modelled from the spec: the `bulleted_list_item(text)` builder helper (§4.1). -/
def bulletedB (text : String) : RawBlock :=
  .mk "bulleted_list_item" [mkSpan text] none none none .nil

/-- Modelled from the spec: the `numbered_list_item(text)` builder helper (§4.1). -/
def numberedB (text : String) : RawBlock :=
  .mk "numbered_list_item" [mkSpan text] none none none .nil

/-- Modelled from the spec: the `quote(text)` builder helper (§4.1). -/
def quoteB (text : String) : RawBlock := .mk "quote" [mkSpan text] none none none .nil

/-- Modelled from the spec: the `code(text, language)` builder helper (§4.1). -/
def codeB (text language : String) : RawBlock :=
  .mk "code" [mkSpan text] none (some language) none .nil

/-- The backquote character, written by code point to keep it out of the
source text. -/
def backquoteChar : Char := Char.ofNat 96

/-- Split a character stream into lines at newline characters. -/
def splitLinesAux : List Char → List Char → List (List Char)
  | [], acc => [acc.reverse]
  | c :: rest, acc =>
    if c = '\n' then acc.reverse :: splitLinesAux rest []
    else splitLinesAux rest (c :: acc)

/-- Trim trailing whitespace from a line (the converter trims trailing
whitespace only, §4.2). -/
def rstripChars (l : List Char) : List Char :=
  (l.reverse.dropWhile Char.isWhitespace).reverse

/-- String from a character list. -/
def strOfChars (l : List Char) : String := ⟨l⟩

/-- Join accumulated verbatim lines back with newlines. -/
def joinChars : List (List Char) → List Char
  | [] => []
  | [x] => x
  | x :: xs => x ++ '\n' :: joinChars xs

/-- Recognize a fenced-block marker: three backquotes, returning the rest of
the line (the language tag, empty when absent) (§4.2). -/
def fenceLang (l : List Char) : Option (List Char) :=
  match l with
  | c1 :: c2 :: c3 :: rest =>
    if c1 = backquoteChar ∧ c2 = backquoteChar ∧ c3 = backquoteChar then some rest else none
  | _ => none

/-- Recognize the `N. text` numbered-list pattern: one or more leading digits,
a dot, a space; the literal number is discarded (§4.2). -/
def numberedContent (l : List Char) : Option (List Char) :=
  match l.takeWhile Char.isDigit, l.drop (l.takeWhile Char.isDigit).length with
  | [], _ => none
  | _ :: _, '.' :: ' ' :: rest => some rest
  | _, _ => none

/-- Modelled from the spec: classification of one non-fence line, checked in
the priority order of the §4.2 table.  Blank lines produce no block; a heading
marker needs exactly one space after the run of `#` (so four or more `#`, or a
missing space, fall through to the paragraph catch-all). -/
def lineToBlock (l : List Char) : Option RawBlock :=
  match l with
  | [] => none
  | '#' :: ' ' :: rest => some (heading1B (strOfChars rest))
  | '#' :: '#' :: ' ' :: rest => some (heading2B (strOfChars rest))
  | '#' :: '#' :: '#' :: ' ' :: rest => some (heading3B (strOfChars rest))
  | '-' :: ' ' :: rest => some (bulletedB (strOfChars rest))
  | '*' :: ' ' :: rest => some (bulletedB (strOfChars rest))
  | '>' :: ' ' :: rest => some (quoteB (strOfChars rest))
  | cs =>
    match numberedContent cs with
    | some rest => some (numberedB (strOfChars rest))
    | none => some (paragraphB (strOfChars cs))

/-- Modelled from the spec: the line-oriented converter loop (§4.2).  The
second argument is the fence state: `none` outside a fence, `some (lang, acc)`
inside one with the accumulated verbatim lines (reversed).  An unclosed fence
at end-of-input still emits its `code` block. -/
def fromLinesGo : List (List Char) → Option (String × List (List Char)) → List RawBlock
  | [], none => []
  | [], some (lang, acc) => [codeB (strOfChars (joinChars acc.reverse)) lang]
  | line :: rest, none =>
    match fenceLang (rstripChars line) with
    | some langChars => fromLinesGo rest (some (strOfChars langChars, []))
    | none =>
      match lineToBlock (rstripChars line) with
      | some b => b :: fromLinesGo rest none
      | none => fromLinesGo rest none
  | line :: rest, some (lang, acc) =>
    if (fenceLang (rstripChars line)).isSome then
      codeB (strOfChars (joinChars acc.reverse)) lang :: fromLinesGo rest none
    else
      fromLinesGo rest (some (lang, line :: acc))

/-- Modelled from the spec: `fromText(text)` (§4.2); the module
`langchain_notion_tools.blocks` is absent from the repository snapshot. -/
def from_text (s : String) : List RawBlock :=
  fromLinesGo (splitLinesAux s.data []) none

/-- Python truthiness of an optional string (`if value:`): present and
non-empty. -/
def strTruthy : Option String → Bool
  | none => false
  | some s => s != ""

/-- Python truthiness of an optional integer (`if status:`): present and
non-zero. -/
def natTruthy : Option Nat → Bool
  | none => false
  | some n => n != 0

/-- Value of an optional string, defaulting to the empty string. -/
def optStr (o : Option String) : String := o.getD ""

/-- A property value in a `properties` mapping.  `titleProp t` is the
convenience title payload `{"title": [{"type": "text", "text": {"content":
t}}]}` injected by `_build_create_payload` (write.py:352-362); `rawVal`
stands for an arbitrary caller-supplied payload, carried through unchanged. -/
inductive PropValue where
  | titleProp (content : String)
  | rawVal (payload : String)
deriving DecidableEq, Repr

/-- A `properties` mapping: insertion-ordered key/value pairs. -/
abbrev PropMap : Type := List (String × PropValue)

/-- Python truthiness of the optional `properties` mapping
(`if payload.properties:`): present and non-empty. -/
def propsTruthy : Option PropMap → Bool
  | none => false
  | some props => !List.isEmpty props

/-- Insert a string into an ascending list of strings. -/
def insertSorted (s : String) : List String → List String
  | [] => [s]
  | x :: xs => if s ≤ x then s :: x :: xs else x :: insertSorted s xs

/-- The `sorted(...)` builtin on string keys (insertion sort). -/
def sortStrings : List String → List String
  | [] => []
  | x :: xs => insertSorted x (sortStrings xs)

/-- Join strings with a separator (`sep.join(parts)`). -/
def joinSep (sep : String) : List String → String
  | [] => ""
  | [x] => x
  | x :: xs => x ++ sep ++ joinSep sep xs

/-- Embedding of `_format_property_keys` (write.py:34-40). -/
def formatPropertyKeys (keys : List String) : String :=
  if keys.isEmpty then "no properties"
  else
    let preview := joinSep ", " (keys.take 3)
    let preview := if keys.length > 3 then preview ++ ", ..." else preview
    "properties: " ++ preview

/-- Embedding of `NotionPageParent` (write.py:59-86): an optional page id and
an optional database id. -/
structure NotionPageParent where
  page_id : Option String
  database_id : Option String
deriving DecidableEq, Repr

/-- Embedding of `NotionPageParent._validate_choice` (write.py:67-72): exactly
one of the two identifiers must be truthy. -/
def validateChoice (p : NotionPageParent) : Except String NotionPageParent :=
  if (if strTruthy p.page_id then 1 else 0) + (if strTruthy p.database_id then 1 else 0) = 1
  then .ok p
  else .error "Provide exactly one of 'page_id' or 'database_id' for parent."

/-- The `parent` field of the remote create payload, as built by
`NotionPageParent.to_api_payload` (write.py:74-79). -/
inductive ParentApiPayload where
  | pagePayload (page_id : String)
  | databasePayload (database_id : String)
deriving DecidableEq, Repr

/-- Embedding of `NotionPageParent.to_api_payload` (write.py:74-79). -/
def toApiPayload (p : NotionPageParent) : Except String ParentApiPayload :=
  if strTruthy p.page_id then .ok (.pagePayload (optStr p.page_id))
  else if strTruthy p.database_id then .ok (.databasePayload (optStr p.database_id))
  else .error "Parent reference is not configured correctly."

/-- Embedding of `NotionPageParent.describe` (write.py:81-86). -/
def describeParent (p : NotionPageParent) : String :=
  if strTruthy p.page_id then "page " ++ optStr p.page_id
  else if strTruthy p.database_id then "database " ++ optStr p.database_id
  else "unknown parent"

/-- Embedding of `NotionUpdateInstruction` (write.py:89-99). -/
structure NotionUpdateInstruction where
  page_id : String
  mode : String
deriving DecidableEq, Repr

/-- Embedding of `NotionUpdateInstruction._validate_mode` (write.py:95-99). -/
def validateMode (u : NotionUpdateInstruction) : Except String NotionUpdateInstruction :=
  if u.mode = "append" ∨ u.mode = "replace" then .ok u
  else .error "mode must be either 'append' or 'replace'."

/-- Embedding of `NotionWriteInput` (write.py:102-128): the validated request
shape accepted by the write tool. -/
structure NotionWriteInput where
  title : Option String
  parent : Option NotionPageParent
  blocks : Option RawBlockList
  update : Option NotionUpdateInstruction
  properties : Option PropMap
  is_dry_run : Bool

/-- Truthiness of `self.parent.database_id` behind the `self.parent is not
None` guard (write.py:140). -/
def parentDbTruthy : Option NotionPageParent → Bool
  | some par => strTruthy par.database_id
  | none => false

/-- Truthiness of `self.parent.page_id` behind the `self.parent is not None`
guard (write.py:142). -/
def parentPageTruthy : Option NotionPageParent → Bool
  | some par => strTruthy par.page_id
  | none => false

/-- Embedding of `NotionWriteInput._validate_operation` (write.py:130-146). -/
def validateOperation (p : NotionWriteInput) : Except String Unit :=
  if p.update.isNone ∧ p.parent.isNone then
    .error "A parent is required when update instructions are not provided."
  else if p.update.isSome ∧ p.parent.isSome then
    .error "Provide either parent for create or update instructions, not both."
  else if p.update.isSome then
    if p.blocks.isNone ∧ p.properties.isNone then
      .error "Provide blocks and/or properties when using update instructions."
    else .ok ()
  else if parentDbTruthy p.parent ∧ p.properties.isNone then
    .error "properties must be provided when parent is a database."
  else if parentPageTruthy p.parent ∧ !strTruthy p.title ∧ p.properties.isNone then
    .error "title or properties must be provided when creating under a page parent."
  else .ok ()

/-- The raw keyword arguments of `_run`/`_arun` before pydantic coercion
(write.py:193-201, 218-226). -/
structure RawWriteInput where
  title : Option String
  parent : Option NotionPageParent
  blocks : Option RawBlockList
  update : Option NotionUpdateInstruction
  properties : Option PropMap
  is_dry_run : Bool

/-- Embedding of `_coerce_payload` (write.py:239-262): build and validate the
parent and update models, then the `NotionWriteInput` model; any validator
failure surfaces as a pydantic `ValidationError` carrying the message. -/
def coercePayload (raw : RawWriteInput) : Except String NotionWriteInput := do
  let parentM ← match raw.parent with
    | none => pure none
    | some p => (validateChoice p).map some
  let updateM ← match raw.update with
    | none => pure none
    | some u => (validateMode u).map some
  let payload : NotionWriteInput :=
    ⟨raw.title, parentM, raw.blocks, updateM, raw.properties, raw.is_dry_run⟩
  (validateOperation payload).map fun _ => payload

/-- Embedding of `NotionWriteResult` (write.py:149-155). -/
structure NotionWriteResult where
  action : String
  page_id : Option String
  url : Option String
  summary : String
deriving DecidableEq, Repr

/-- The error taxonomy of the tool: `NotionConfigurationError`,
`ToolExecutionError`, and the pydantic `ValidationError` that `_arun` lets
propagate (write.py:218-237). -/
inductive ToolError where
  | configError (message : String)
  | toolExecutionError (message : String)
  | validationError (message : String)
deriving DecidableEq, Repr

/-- An error raised by a Client Adapter call, with the optional `code` and
`status` fields of an upstream `APIResponseError`.  (In this repository
`APIResponseError` falls back to `Exception` when `notion_client` is absent,
write.py:18-21, so the `isinstance` test in `_raise_tool_error` accepts every
error carrying the fields.) -/
structure ClientError where
  message : String
  code : Option String
  status : Option Nat
deriving DecidableEq, Repr

/-- An exception reaching `_raise_tool_error`: an already-raised tool error, a
configuration error, or a Client Adapter error. -/
inductive PyException where
  | toolExecution (message : String)
  | config (message : String)
  | clientErr (e : ClientError)
deriving DecidableEq, Repr

/-- Embedding of `_raise_tool_error` (write.py:43-56): tool-level and
configuration errors re-raise unchanged; anything else is wrapped as
`ToolExecutionError` with the operation name and, when truthy, the upstream
`code` and `status` fields. -/
def raiseToolError (operation : String) : PyException → ToolError
  | .toolExecution m => .toolExecutionError m
  | .config m => .configError m
  | .clientErr e =>
    let message := operation ++ " failed: " ++ e.message
    let message := if strTruthy e.code then message ++ " (code " ++ optStr e.code ++ ")" else message
    let message :=
      if natTruthy e.status then message ++ " [status " ++ toString (e.status.getD 0) ++ "]"
      else message
    .toolExecutionError message

/-- A page response from the Client Adapter, read through `.get("id")` and
`.get("url")` (write.py:544-550, 522-531). -/
structure PageResponse where
  id : Option String
  url : Option String
deriving DecidableEq, Repr

/-- The remote create payload built by `_build_create_payload`
(write.py:365-371): `children` is present only when there is at least one
block. -/
structure CreatePayload where
  parent : ParentApiPayload
  properties : PropMap
  children : Option RawBlockList

/-- One Client Adapter invocation, as observed at the tool boundary.  The
`replace` parameter of the append call is `some true` exactly when the key is
present in the params dict (write.py:447-453). -/
inductive ApiCall where
  | pagesCreate (payload : CreatePayload)
  | pagesUpdate (page_id : String) (properties : PropMap)
  | blocksChildrenAppend (block_id : String) (children : RawBlockList) (replace : Option Bool)
  | pagesRetrieve (page_id : String)

/-- The Client Adapter's behaviour: the outcome of each remote operation. -/
structure ClientBehavior where
  createResult : CreatePayload → Except ClientError PageResponse
  updateResult : String → PropMap → Except ClientError PageResponse
  appendResult : String → RawBlockList → Option Bool → Except ClientError Unit
  retrieveResult : String → Except ClientError PageResponse

/-- Embedding of `NotionWriteTool._sanitize_blocks` (write.py:334-340): a
falsy block list short-circuits to `[]` without running the sanitizer. -/
def sanitizeBlocksOpt (blocks : Option RawBlockList) : Except String RawBlockList :=
  match blocks with
  | none => .ok .nil
  | some bs => if bs.isNil then .ok .nil else sanitize_blocks bs

/-- Set-if-absent insertion of the convenience `title` property
(`properties.setdefault("title", ...)`, write.py:352-362). -/
def setdefaultTitle (props : PropMap) (t : String) : PropMap :=
  if props.any fun kv => kv.1 = "title" then props
  else props ++ [("title", PropValue.titleProp t)]

/-- Embedding of `_build_create_payload` (write.py:342-371). -/
def buildCreatePayload (p : NotionWriteInput) (blocks : RawBlockList) :
    Except ToolError (CreatePayload × List String) :=
  match p.parent with
  | none => .error (.configError "Parent must be provided for create operations.")
  | some par =>
    let props0 := p.properties.getD []
    let props :=
      if strTruthy p.title ∧ strTruthy par.page_id then setdefaultTitle props0 (optStr p.title)
      else props0
    let propertyKeys := sortStrings (props.map Prod.fst)
    match toApiPayload par with
    | .error m => .error (.configError m)
    | .ok pa =>
      .ok (⟨pa, props, if blocks.isNil then none else some blocks⟩, propertyKeys)

/-- Embedding of `_summarize_create` (write.py:373-391). -/
def summarizeCreate (p : NotionWriteInput) (blocks : RawBlockList)
    (propertyKeys : List String) (dryRun : Bool) : String :=
  let parentDesc := match p.parent with | some par => describeParent par | none => "parent not set"
  let blocksCount := blocks.length
  let actionPhrase := if dryRun then "would create" else "Created"
  let pre := if dryRun then "Dry run: " else ""
  let title := if strTruthy p.title then optStr p.title else "untitled"
  let blocksFragment :=
    if blocksCount ≠ 0 then toString blocksCount ++ " block(s)" else "no blocks"
  let propertiesFragment := formatPropertyKeys propertyKeys
  pre ++ actionPhrase ++ " page under " ++ parentDesc ++ " with title '" ++ title ++ "'" ++
    " (" ++ blocksFragment ++ "; " ++ propertiesFragment ++ ")."

/-- Embedding of `_summarize_update` (write.py:485-520). -/
def summarizeUpdate (p : NotionWriteInput) (u : NotionUpdateInstruction)
    (blocks : RawBlockList) (dryRun : Bool) : String :=
  let blockCount := blocks.length
  let propertyKeys := sortStrings ((p.properties.getD []).map Prod.fst)
  let propertiesFragment :=
    if !propertyKeys.isEmpty then "properties (" ++ joinSep ", " propertyKeys ++ ")"
    else "properties"
  let phrases :=
    if blockCount ≠ 0 then
      let fut :=
        if u.mode = "replace" then "replace content with " ++ toString blockCount ++ " block(s)"
        else "append " ++ toString blockCount ++ " block(s)"
      let past :=
        if u.mode = "replace" then "Replaced content with " ++ toString blockCount ++ " block(s)"
        else "Appended " ++ toString blockCount ++ " block(s)"
      if !propertyKeys.isEmpty then
        (fut ++ " and update " ++ propertiesFragment, past ++ " and updated " ++ propertiesFragment)
      else (fut, past)
    else
      if !propertyKeys.isEmpty then
        ("update " ++ propertiesFragment, "Updated " ++ propertiesFragment)
      else ("make no changes", "No changes")
  if dryRun then "Dry run: would " ++ phrases.1 ++ " on page " ++ u.page_id ++ "."
  else phrases.2 ++ " on page " ++ u.page_id ++ "."

/-- Embedding of `_apply_update_sync` (write.py:433-457): optionally call
`pages.update`, then optionally call `blocks.children.append` with the
`replace` parameter present exactly when `mode == "replace"`; client failures
are wrapped by `_raise_tool_error`.  Returns the outcome together with the
trace of attempted Client Adapter calls. -/
def applyUpdateSync (c : ClientBehavior) (p : NotionWriteInput)
    (u : NotionUpdateInstruction) (blocks : RawBlockList) :
    Except ToolError Unit × List ApiCall :=
  let props := p.properties.getD []
  let step1 : Except ToolError Unit × List ApiCall :=
    if propsTruthy p.properties then
      match c.updateResult u.page_id props with
      | .error e =>
        (.error (raiseToolError "Update page properties" (.clientErr e)),
         [.pagesUpdate u.page_id props])
      | .ok _ => (.ok (), [.pagesUpdate u.page_id props])
    else (.ok (), [])
  match step1 with
  | (.error e, tr) => (.error e, tr)
  | (.ok _, tr) =>
    if !blocks.isNil then
      let rep : Option Bool := if u.mode = "replace" then some true else none
      match c.appendResult u.page_id blocks rep with
      | .error e =>
        (.error (raiseToolError "Update page blocks" (.clientErr e)),
         tr ++ [.blocksChildrenAppend u.page_id blocks rep])
      | .ok _ => (.ok (), tr ++ [.blocksChildrenAppend u.page_id blocks rep])
    else (.ok (), tr)

/-- Embedding of `_retrieve_page_url_sync` (write.py:522-531): retrieve the
page and extract its `url` when it is a string. -/
def retrievePageUrlSync (c : ClientBehavior) (page_id : String) :
    Except ToolError (Option String) × List ApiCall :=
  match c.retrieveResult page_id with
  | .error e => (.error (raiseToolError "Retrieve page" (.clientErr e)), [.pagesRetrieve page_id])
  | .ok resp => (.ok resp.url, [.pagesRetrieve page_id])

/-- Embedding of `_handle_update_sync` (write.py:393-411): sanitize, compute
the summary, return a dry-run result without network calls when requested,
otherwise apply the update and retrieve the page url. -/
def handleUpdateSync (c : ClientBehavior) (p : NotionWriteInput)
    (u : NotionUpdateInstruction) : Except ToolError NotionWriteResult × List ApiCall :=
  match sanitizeBlocksOpt p.blocks with
  | .error m => (.error (.configError m), [])
  | .ok sblocks =>
    let summary := summarizeUpdate p u sblocks p.is_dry_run
    if p.is_dry_run then
      (.ok ⟨"dry_run", some u.page_id, none, summary⟩, [])
    else
      match applyUpdateSync c p u sblocks with
      | (.error e, tr) => (.error e, tr)
      | (.ok _, tr) =>
        match retrievePageUrlSync c u.page_id with
        | (.error e, tr2) => (.error e, tr ++ tr2)
        | (.ok url, tr2) => (.ok ⟨"updated", some u.page_id, url, summary⟩, tr ++ tr2)

/-- Embedding of `_execute_sync` (write.py:264-297): dispatch to the update
branch when `update` is present; otherwise sanitize, build the create payload,
return a dry-run result without network calls when requested, otherwise call
`pages.create` and build the result from the response. -/
def executeSync (c : ClientBehavior) (p : NotionWriteInput) :
    Except ToolError NotionWriteResult × List ApiCall :=
  match p.update with
  | some u => handleUpdateSync c p u
  | none =>
    match sanitizeBlocksOpt p.blocks with
    | .error m => (.error (.configError m), [])
    | .ok sblocks =>
      match buildCreatePayload p sblocks with
      | .error e => (.error e, [])
      | .ok (createPayload, propertyKeys) =>
        if p.is_dry_run then
          (.ok ⟨"dry_run", none, none, summarizeCreate p sblocks propertyKeys true⟩, [])
        else
          match c.createResult createPayload with
          | .error e =>
            (.error (raiseToolError "Create page" (.clientErr e)), [.pagesCreate createPayload])
          | .ok resp =>
            (.ok ⟨"created", resp.id, resp.url, summarizeCreate p sblocks propertyKeys false⟩,
             [.pagesCreate createPayload])

/-- Embedding of `_apply_update_async` (write.py:459-483), transcribed from
the async function body; the awaited client calls are the same observable
operations as in the sync path. -/
def applyUpdateAsync (c : ClientBehavior) (p : NotionWriteInput)
    (u : NotionUpdateInstruction) (blocks : RawBlockList) :
    Except ToolError Unit × List ApiCall :=
  let props := p.properties.getD []
  let step1 : Except ToolError Unit × List ApiCall :=
    if propsTruthy p.properties then
      match c.updateResult u.page_id props with
      | .error e =>
        (.error (raiseToolError "Update page properties" (.clientErr e)),
         [.pagesUpdate u.page_id props])
      | .ok _ => (.ok (), [.pagesUpdate u.page_id props])
    else (.ok (), [])
  match step1 with
  | (.error e, tr) => (.error e, tr)
  | (.ok _, tr) =>
    if !blocks.isNil then
      let rep : Option Bool := if u.mode = "replace" then some true else none
      match c.appendResult u.page_id blocks rep with
      | .error e =>
        (.error (raiseToolError "Update page blocks" (.clientErr e)),
         tr ++ [.blocksChildrenAppend u.page_id blocks rep])
      | .ok _ => (.ok (), tr ++ [.blocksChildrenAppend u.page_id blocks rep])
    else (.ok (), tr)

/-- Embedding of `_retrieve_page_url_async` (write.py:533-542). -/
def retrievePageUrlAsync (c : ClientBehavior) (page_id : String) :
    Except ToolError (Option String) × List ApiCall :=
  match c.retrieveResult page_id with
  | .error e => (.error (raiseToolError "Retrieve page" (.clientErr e)), [.pagesRetrieve page_id])
  | .ok resp => (.ok resp.url, [.pagesRetrieve page_id])

/-- Embedding of `_handle_update_async` (write.py:413-431). -/
def handleUpdateAsync (c : ClientBehavior) (p : NotionWriteInput)
    (u : NotionUpdateInstruction) : Except ToolError NotionWriteResult × List ApiCall :=
  match sanitizeBlocksOpt p.blocks with
  | .error m => (.error (.configError m), [])
  | .ok sblocks =>
    let summary := summarizeUpdate p u sblocks p.is_dry_run
    if p.is_dry_run then
      (.ok ⟨"dry_run", some u.page_id, none, summary⟩, [])
    else
      match applyUpdateAsync c p u sblocks with
      | (.error e, tr) => (.error e, tr)
      | (.ok _, tr) =>
        match retrievePageUrlAsync c u.page_id with
        | (.error e, tr2) => (.error e, tr ++ tr2)
        | (.ok url, tr2) => (.ok ⟨"updated", some u.page_id, url, summary⟩, tr ++ tr2)

/-- Embedding of `_execute_async` (write.py:299-332). -/
def executeAsync (c : ClientBehavior) (p : NotionWriteInput) :
    Except ToolError NotionWriteResult × List ApiCall :=
  match p.update with
  | some u => handleUpdateAsync c p u
  | none =>
    match sanitizeBlocksOpt p.blocks with
    | .error m => (.error (.configError m), [])
    | .ok sblocks =>
      match buildCreatePayload p sblocks with
      | .error e => (.error e, [])
      | .ok (createPayload, propertyKeys) =>
        if p.is_dry_run then
          (.ok ⟨"dry_run", none, none, summarizeCreate p sblocks propertyKeys true⟩, [])
        else
          match c.createResult createPayload with
          | .error e =>
            (.error (raiseToolError "Create page" (.clientErr e)), [.pagesCreate createPayload])
          | .ok resp =>
            (.ok ⟨"created", resp.id, resp.url, summarizeCreate p sblocks propertyKeys false⟩,
             [.pagesCreate createPayload])

/-- Embedding of `_run` (write.py:193-216): coerce the payload, wrapping a
pydantic `ValidationError` into `NotionConfigurationError` (write.py:212-213),
then execute the synchronous path. -/
def runTool (c : ClientBehavior) (raw : RawWriteInput) :
    Except ToolError NotionWriteResult × List ApiCall :=
  match coercePayload raw with
  | .error m => (.error (.configError m), [])
  | .ok p => executeSync c p

/-- Embedding of `_arun` (write.py:218-237): coerce the payload — with no
`ValidationError` handler, so a validation failure propagates as the pydantic
error itself — then execute the asynchronous path. -/
def arunTool (c : ClientBehavior) (raw : RawWriteInput) :
    Except ToolError NotionWriteResult × List ApiCall :=
  match coercePayload raw with
  | .error m => (.error (.validationError m), [])
  | .ok p => executeAsync c p

/-- A Client Adapter whose four operations all succeed with the given
responses. -/
def okClient (createR updateR retrieveR : PageResponse) : ClientBehavior :=
  ⟨fun _ => .ok createR, fun _ _ => .ok updateR, fun _ _ _ => .ok (), fun _ => .ok retrieveR⟩

/-- A concrete all-success Client Adapter, shaped like the dummy client of
`tests/tools/test_write.py`. -/
def demoClient : ClientBehavior :=
  okClient ⟨some "page-created", some "https://notion.so/page-created"⟩
    ⟨some "page-x", none⟩ ⟨some "page-99", some "https://notion.so/page-99"⟩

/-- A Client Adapter whose create call fails with an upstream error carrying
`code` and `status` fields. -/
def createFailClient : ClientBehavior :=
  ⟨fun _ => .error ⟨"boom", some "invalid_request", some 400⟩,
   fun _ _ => .ok ⟨none, none⟩, fun _ _ _ => .ok (), fun _ => .ok ⟨none, none⟩⟩

/-- A single allow-listed quote block. -/
def oneQuoteBlock : RawBlockList := .cons (quoteB "Quote") .nil

/-- A replace-mode update request carrying one block and no properties
(the shape of `test_replace_update_mode_sets_replace_flag`). -/
def payloadReplace : NotionWriteInput :=
  ⟨none, none, some oneQuoteBlock, some ⟨"page-99", "replace"⟩, none, false⟩

/-- The result the sync path produces for `payloadReplace` against
`demoClient`. -/
def resultReplace : NotionWriteResult :=
  ⟨"updated", some "page-99", some "https://notion.so/page-99",
   "Replaced content with 1 block(s) on page page-99."⟩

/-- Raw keyword arguments supplying both `parent` and `update`. -/
def bothRaw : RawWriteInput :=
  ⟨none, some ⟨some "p", none⟩, none, some ⟨"u", "append"⟩,
   some [("Status", .rawVal "done")], false⟩

/-- Raw keyword arguments for a valid append-mode update request. -/
def appendRaw : RawWriteInput :=
  ⟨none, none, some oneQuoteBlock, some ⟨"page-42", "append"⟩, none, false⟩

/-- The coerced payload of `appendRaw`. -/
def appendPayload : NotionWriteInput :=
  ⟨none, none, some oneQuoteBlock, some ⟨"page-42", "append"⟩, none, false⟩

/-- A dry-run append-mode update request. -/
def dryUpdatePayload : NotionWriteInput :=
  ⟨none, none, some oneQuoteBlock, some ⟨"page-dry", "append"⟩, none, true⟩

/-- A dry-run create request under a page parent. -/
def dryCreatePayload : NotionWriteInput :=
  ⟨some "Plan", some ⟨some "parent-1", none⟩, none, none, none, true⟩

/-- A block list with a type outside the allow-list. -/
def badTypeBlocks : RawBlockList := .cons (.mk "unsupported" [] none none none .nil) .nil

/-- A dry-run update request whose blocks violate the allow-list. -/
def dryBadPayload : NotionWriteInput :=
  ⟨none, none, some badTypeBlocks, some ⟨"page-1", "append"⟩, none, true⟩

/-- Blocks for the C4 witness: a toggle with a linked span and a nested
paragraph, followed by a code block. -/
def witnessBlocks : RawBlockList :=
  .cons (.mk "toggle" [⟨"Toggle", some "https://example.com"⟩] none none none
    (.cons (paragraphB "Nested") .nil)) (.cons (codeB "x" "python") .nil)

/-- Induction principle for block trees: the motive holds of `nil` and is
preserved by `cons` given it holds of the head's children and of the tail. -/
theorem blockListInduction (Q : RawBlockList → Prop)
    (hnil : Q .nil)
    (hcons : ∀ t rt chk lang icon ch bs, Q ch → Q bs →
      Q (.cons (.mk t rt chk lang icon ch) bs)) :
    ∀ bs, Q bs
  | .nil => hnil
  | .cons (.mk t rt chk lang icon ch) bs =>
    hcons t rt chk lang icon ch bs (blockListInduction Q hnil hcons ch)
      (blockListInduction Q hnil hcons bs)

/-- Associativity of string concatenation. -/
theorem strAppendAssoc (a b c : String) : a ++ b ++ c = a ++ (b ++ c) := by
  rcases a with ⟨da⟩; rcases b with ⟨db⟩; rcases c with ⟨dc⟩
  show String.mk (da ++ db ++ dc) = String.mk (da ++ (db ++ dc))
  rw [List.append_assoc]

/-- Link stripping preserves the number of top-level blocks. -/
theorem stripLinks_length (bs : RawBlockList) :
    (stripLinksList bs).length = bs.length := by
  induction bs using blockListInduction with
  | hnil => rfl
  | hcons t rt chk lang icon ch bs ihCh ihBs =>
    simp [stripLinksList, RawBlockList.length, ihBs]

/-- Link stripping preserves every block type tag, in order, at every depth. -/
theorem stripLinks_types (bs : RawBlockList) :
    typesList (stripLinksList bs) = typesList bs := by
  induction bs using blockListInduction with
  | hnil => rfl
  | hcons t rt chk lang icon ch bs ihCh ihBs =>
    simp [stripLinksList, typesList, ihCh, ihBs]

/-- Link stripping preserves every span content, in order, at every depth. -/
theorem stripLinks_contents (bs : RawBlockList) :
    contentsList (stripLinksList bs) = contentsList bs := by
  induction bs using blockListInduction with
  | hnil => rfl
  | hcons t rt chk lang icon ch bs ihCh ihBs =>
    simp [stripLinksList, contentsList, ihCh, ihBs]

/-- Link stripping preserves the `checked`/`language`/`icon` extras, in order,
at every depth. -/
theorem stripLinks_extras (bs : RawBlockList) :
    extrasList (stripLinksList bs) = extrasList bs := by
  induction bs using blockListInduction with
  | hnil => rfl
  | hcons t rt chk lang icon ch bs ihCh ihBs =>
    simp [stripLinksList, extrasList, ihCh, ihBs]

/-- After link stripping no span anywhere in the tree carries a link. -/
theorem stripLinks_linkFree (bs : RawBlockList) :
    linkFreeList (stripLinksList bs) = true := by
  induction bs using blockListInduction with
  | hnil => rfl
  | hcons t rt chk lang icon ch bs ihCh ihBs =>
    simp [stripLinksList, linkFreeList, ihCh, ihBs, List.all_eq_true]

/-- The sanitization walk succeeds on an allow-listed tree whose text fits in
the remaining budget, returning the link-stripped tree and the grown total. -/
theorem sanitizeListAux_ok (bs : RawBlockList) :
    ∀ t : Nat, allowedList bs = true → t + textLenList bs ≤ MAX_TOTAL_TEXT_LENGTH →
      sanitizeListAux bs t = .ok (stripLinksList bs, t + textLenList bs) := by
  induction bs using blockListInduction with
  | hnil => intro t _ _; simp [sanitizeListAux, stripLinksList, textLenList]
  | hcons ty rt chk lang icon ch bs ihCh ihBs =>
    intro t hA hL
    simp only [allowedList, Bool.and_eq_true] at hA
    obtain ⟨⟨hTy, hACh⟩, hABs⟩ := hA
    simp only [textLenList] at hL
    rw [sanitizeListAux, if_pos hTy, if_neg (by omega)]
    simp only [ihCh (t + richTextLen rt) hACh (by omega),
      ihBs (t + richTextLen rt + textLenList ch) hABs (by omega),
      stripLinksList, textLenList, Except.ok.injEq, Prod.mk.injEq]
    refine ⟨by trivial, by omega⟩

/-- Success of the sanitization walk forces: every type allow-listed, the
final total is the initial total plus the tree's text length, the output is
the link-stripped tree, and (unless the tree added nothing) the final total
was checked against the budget. -/
theorem sanitizeListAux_sound (bs : RawBlockList) :
    ∀ (t t2 : Nat) (out : RawBlockList),
      sanitizeListAux bs t = .ok (out, t2) →
      allowedList bs = true ∧ t2 = t + textLenList bs ∧ out = stripLinksList bs ∧
        (t2 ≤ MAX_TOTAL_TEXT_LENGTH ∨ t2 = t) := by
  induction bs using blockListInduction with
  | hnil =>
    intro t t2 out h
    simp only [sanitizeListAux, Except.ok.injEq, Prod.mk.injEq] at h
    obtain ⟨h1, h2⟩ := h
    subst h1
    subst h2
    simp [allowedList, textLenList, stripLinksList]
  | hcons ty rt chk lang icon ch bs ihCh ihBs =>
    intro t t2 out h
    rw [sanitizeListAux] at h
    by_cases hTy : ALLOWED_BLOCK_TYPES.contains ty
    · rw [if_pos hTy] at h
      by_cases hOv : t + richTextLen rt > MAX_TOTAL_TEXT_LENGTH
      · rw [if_pos hOv] at h; exact absurd h (by simp)
      · rw [if_neg hOv] at h
        cases hch : sanitizeListAux ch (t + richTextLen rt) with
        | error m => simp only [hch] at h; exact Except.noConfusion h
        | ok r =>
          obtain ⟨ch2, tc⟩ := r
          simp only [hch] at h
          cases hbs : sanitizeListAux bs tc with
          | error m => simp only [hbs] at h; exact Except.noConfusion h
          | ok r2 =>
            obtain ⟨bs2, tb⟩ := r2
            simp only [hbs, Except.ok.injEq, Prod.mk.injEq] at h
            obtain ⟨h1, h2⟩ := h
            obtain ⟨hACh, htc, hch2, hlec⟩ := ihCh (t + richTextLen rt) tc ch2 hch
            obtain ⟨hABs, htb, hbs2, hleb⟩ := ihBs tc tb bs2 hbs
            refine ⟨?_, ?_, ?_, ?_⟩
            · simp only [allowedList, Bool.and_eq_true]
              exact ⟨⟨hTy, hACh⟩, hABs⟩
            · simp only [textLenList]; omega
            · simp [← h1, stripLinksList, hch2, hbs2]
            · left; omega
    · rw [if_neg hTy] at h; exact absurd h (by simp)

/-- C1: `sanitize_blocks` fails (the tool raises `NotionConfigurationError`)
if and only if some block at any nesting depth has a type outside the fixed
allow-list, or the number of top-level blocks exceeds `MAX_BLOCKS` (50), or
the recursively accumulated total rich-text length exceeds
`MAX_TOTAL_TEXT_LENGTH` (2000). -/
theorem sanitize_error_iff_invalid (bs : RawBlockList) :
    (∃ m, sanitize_blocks bs = .error m) ↔
      (allowedList bs = false ∨ MAX_BLOCKS < bs.length ∨
        MAX_TOTAL_TEXT_LENGTH < textLenList bs) := by
  constructor
  · rintro ⟨m, hm⟩
    by_contra hcon
    push_neg at hcon
    obtain ⟨hA, hB, hT⟩ := hcon
    have hA2 : allowedList bs = true := by
      cases hq : allowedList bs
      · exact absurd hq hA
      · rfl
    rw [sanitize_blocks, if_neg (by omega)] at hm
    simp only [sanitizeListAux_ok bs 0 hA2 (by omega)] at hm
    exact Except.noConfusion hm
  · intro h
    rw [sanitize_blocks]
    by_cases hLen : bs.length > MAX_BLOCKS
    · rw [if_pos hLen]
      exact ⟨_, rfl⟩
    · rw [if_neg hLen]
      cases hs : sanitizeListAux bs 0 with
      | error m => exact ⟨m, rfl⟩
      | ok r =>
        obtain ⟨out, t2⟩ := r
        exfalso
        obtain ⟨hA, ht2, hout, hle⟩ := sanitizeListAux_sound bs 0 t2 out hs
        rcases h with h | h | h
        · rw [hA] at h
          exact Bool.noConfusion h
        · omega
        · omega

/-- Witness for C1: the iff applied at a concrete failing input (one block of
a disallowed type) and at a concrete passing input. -/
theorem sanitize_error_iff_invalid_witness :
    (∃ m, sanitize_blocks badTypeBlocks = .error m) ∧
      ¬∃ m, sanitize_blocks oneQuoteBlock = .error m :=
  ⟨(sanitize_error_iff_invalid badTypeBlocks).mpr (by left; rfl),
   fun h => by
    have := (sanitize_error_iff_invalid oneQuoteBlock).mp h
    revert this
    decide⟩

/-- C4: on an allow-listed block tree within both size limits,
`sanitize_blocks` succeeds and returns exactly the link-stripped tree; link
stripping preserves the number, order, types, span contents and
`checked`/`language`/`icon` extras of all blocks at every depth, and removes
every link. -/
theorem sanitize_preserves_valid_blocks (bs : RawBlockList)
    (hA : allowedList bs = true) (hB : bs.length ≤ MAX_BLOCKS)
    (hT : textLenList bs ≤ MAX_TOTAL_TEXT_LENGTH) :
    sanitize_blocks bs = .ok (stripLinksList bs) ∧
    (stripLinksList bs).length = bs.length ∧
    typesList (stripLinksList bs) = typesList bs ∧
    contentsList (stripLinksList bs) = contentsList bs ∧
    extrasList (stripLinksList bs) = extrasList bs ∧
    linkFreeList (stripLinksList bs) = true := by
  refine ⟨?_, stripLinks_length bs, stripLinks_types bs, stripLinks_contents bs,
    stripLinks_extras bs, stripLinks_linkFree bs⟩
  rw [sanitize_blocks, if_neg (by omega)]
  simp only [sanitizeListAux_ok bs 0 hA (by omega)]

/-- Witness for C4: sanitization of a toggle with a linked span and a nested
paragraph, plus a code block, returns the same tree with only the link
removed. -/
theorem sanitize_preserves_valid_blocks_witness :
    sanitize_blocks witnessBlocks =
      .ok (.cons (.mk "toggle" [⟨"Toggle", none⟩] none none none
        (.cons (paragraphB "Nested") .nil)) (.cons (codeB "x" "python") .nil)) :=
  (sanitize_preserves_valid_blocks witnessBlocks (by rfl) (by decide) (by decide)).1.trans
    (by rfl)

/-- C9: `from_text` on the golden input produces exactly, in order, a
`heading_1` block with content `Title`, two `bulleted_list_item` blocks with
contents `Item one` and `Item two`, and a `code` block with language `python`
and content `print("Hello")`; blank lines produce no blocks. -/
theorem from_text_golden :
    from_text "# Title\n\n- Item one\n- Item two\n\n```python\nprint(\"Hello\")\n```\n" =
      [heading1B "Title", bulletedB "Item one", bulletedB "Item two",
       codeB "print(\"Hello\")" "python"] ∧
    from_text "\n\n" = [] :=
  ⟨rfl, rfl⟩

/-- C10: supplied blocks are sanitized before the dry-run flag is checked, in
both the update and the create branch, so a request whose blocks violate the
allow-list or the size limits raises `NotionConfigurationError` even when
`is_dry_run` is true, and no preview result is returned and no Client Adapter
call is made. -/
theorem dry_run_still_validates (c : ClientBehavior) (p : NotionWriteInput) (m : String)
    (hs : sanitizeBlocksOpt p.blocks = .error m) (_hd : p.is_dry_run = true) :
    executeSync c p = (.error (.configError m), []) := by
  cases hu : p.update with
  | some u => simp only [executeSync, hu, handleUpdateSync, hs]
  | none => simp only [executeSync, hu, hs]

/-- Witness for C10: a dry-run update request with a disallowed block type is
rejected with a configuration error and an empty call trace. -/
theorem dry_run_still_validates_witness :
    executeSync demoClient dryBadPayload =
      (.error (.configError "Unsupported block type: unsupported"), []) :=
  dry_run_still_validates demoClient dryBadPayload
    "Unsupported block type: unsupported" rfl rfl

/-- C6: with `is_dry_run` set, no Client Adapter operation is invoked and the
result is a `dry_run` action whose `page_id` is the update target in the
update branch and `null` in the create branch, with a `null` url and the
preview summary, in both branches. -/
theorem dry_run_skips_network (c : ClientBehavior) (p : NotionWriteInput)
    (hd : p.is_dry_run = true) (sbs : RawBlockList)
    (hs : sanitizeBlocksOpt p.blocks = .ok sbs) :
    (∀ u, p.update = some u →
      executeSync c p =
        (.ok ⟨"dry_run", some u.page_id, none, summarizeUpdate p u sbs true⟩, [])) ∧
    (∀ cp pk, p.update = none → buildCreatePayload p sbs = .ok (cp, pk) →
      executeSync c p = (.ok ⟨"dry_run", none, none, summarizeCreate p sbs pk true⟩, [])) := by
  constructor
  · intro u hu
    simp only [executeSync, hu, handleUpdateSync, hs, hd, if_true]
  · intro cp pk hu hb
    simp only [executeSync, hu, hs, hb, hd, if_true]

/-- Witness for C6: the dry-run update and dry-run create requests both
produce a `dry_run` result with no Client Adapter calls. -/
theorem dry_run_skips_network_witness :
    executeSync demoClient dryUpdatePayload =
      (.ok ⟨"dry_run", some "page-dry", none,
        "Dry run: would append 1 block(s) on page page-dry."⟩, []) ∧
    executeSync demoClient dryCreatePayload =
      (.ok ⟨"dry_run", none, none,
        "Dry run: would create page under page parent-1 with title 'Plan' (no blocks;"
          ++ " properties: title)."⟩, []) := by
  constructor
  · exact ((dry_run_skips_network demoClient dryUpdatePayload rfl oneQuoteBlock rfl).1
      ⟨"page-dry", "append"⟩ rfl).trans (by rfl)
  · exact ((dry_run_skips_network demoClient dryCreatePayload rfl .nil rfl).2
      ⟨.pagePayload "parent-1", [("title", .titleProp "Plan")], none⟩ ["title"] rfl rfl).trans
      (by rfl)

/-- C5: for a non-dry-run update request against a client whose calls succeed,
the Client Adapter calls are exactly, in order: `pages.update` iff the
properties mapping is non-empty, then `blocks.children.append` with the
`replace` parameter present iff the mode is `replace` and only when the
sanitized block list is non-empty, then always `pages.retrieve`, last. -/
theorem update_call_order (cR uR rR : PageResponse) (p : NotionWriteInput)
    (u : NotionUpdateInstruction) (hu : p.update = some u) (hd : p.is_dry_run = false)
    (sbs : RawBlockList) (hs : sanitizeBlocksOpt p.blocks = .ok sbs) :
    (executeSync (okClient cR uR rR) p).2 =
      (if propsTruthy p.properties then [ApiCall.pagesUpdate u.page_id (p.properties.getD [])]
       else [])
      ++ (if sbs.isNil then []
          else [ApiCall.blocksChildrenAppend u.page_id sbs
            (if u.mode = "replace" then some true else none)])
      ++ [ApiCall.pagesRetrieve u.page_id] := by
  simp only [executeSync, hu, handleUpdateSync, hs, hd, Bool.false_eq_true, if_false,
    applyUpdateSync, retrievePageUrlSync, okClient]
  by_cases hp : propsTruthy p.properties
  · simp only [hp, if_true]
    cases hb : sbs.isNil with
    | true =>
      have : (!sbs.isNil) = false := by rw [hb]; rfl
      simp [this]
    | false =>
      have : (!sbs.isNil) = true := by rw [hb]; rfl
      simp [this]
  · simp only [hp, if_false]
    cases hb : sbs.isNil with
    | true =>
      have : (!sbs.isNil) = false := by rw [hb]; rfl
      simp [this]
    | false =>
      have : (!sbs.isNil) = true := by rw [hb]; rfl
      simp [this]

/-- Witness for C5: the replace-mode request with one block and no properties
issues exactly the append call (with the replace flag) followed by the
retrieve call. -/
theorem update_call_order_witness :
    (executeSync demoClient payloadReplace).2 =
      [ApiCall.blocksChildrenAppend "page-99" oneQuoteBlock (some true),
       ApiCall.pagesRetrieve "page-99"] := by
  have h := update_call_order
    ⟨some "page-created", some "https://notion.so/page-created"⟩
    ⟨some "page-x", none⟩ ⟨some "page-99", some "https://notion.so/page-99"⟩
    payloadReplace ⟨"page-99", "replace"⟩ rfl rfl oneQuoteBlock rfl
  exact h.trans (by rfl)

/-- Shape of the update summary for a non-dry-run replace-mode request with
blocks and no properties: the code phrases it `Replaced content with N
block(s)` (write.py:503), not `Replaced N block(s)`. -/
theorem summarizeReplaceNoProps (p : NotionWriteInput) (u : NotionUpdateInstruction)
    (sbs : RawBlockList) (hm : u.mode = "replace") (hp : p.properties = none)
    (hn : sbs.length ≠ 0) :
    summarizeUpdate p u sbs false =
      "Replaced content with " ++ toString sbs.length ++ " block(s) on page " ++
        u.page_id ++ "." := by
  rw [summarizeUpdate, hp, hm]
  simp only [Option.getD_none, List.map_nil, sortStrings, List.isEmpty_nil, Bool.not_true,
    Bool.false_eq_true, if_false, if_pos hn, eq_self_iff_true, if_true]
  rw [strAppendAssoc ("Replaced content with " ++ toString sbs.length) " block(s)" " on page "]
  have hlit : (" block(s)" ++ " on page " : String) = " block(s) on page " := rfl
  rw [hlit]

/-- Counterexample for C2: a replace-mode update of one block on page
`page-99` yields the summary `Replaced content with 1 block(s) on page
page-99.`, not `Replaced 1 block(s) on page page-99.` as claimed. -/
theorem replace_summary_counterexample :
    (executeSync demoClient payloadReplace).1 = .ok resultReplace ∧
    resultReplace.summary = "Replaced content with 1 block(s) on page page-99." ∧
    resultReplace.summary ≠ "Replaced 1 block(s) on page page-99." :=
  ⟨rfl, rfl, by decide⟩

/-- C2 (amended): for every non-dry-run update-mode request with mode
`replace`, a non-empty sanitized block list of N blocks and no properties,
the returned summary is `Replaced content with N block(s) on page <id>.`. -/
theorem replace_summary_amended (c : ClientBehavior) (p : NotionWriteInput)
    (u : NotionUpdateInstruction) (hu : p.update = some u) (hm : u.mode = "replace")
    (hp : p.properties = none) (hd : p.is_dry_run = false) (sbs : RawBlockList)
    (hs : sanitizeBlocksOpt p.blocks = .ok sbs) (hn : sbs.length ≠ 0)
    (r : NotionWriteResult) (hr : (executeSync c p).1 = .ok r) :
    r.summary = "Replaced content with " ++ toString sbs.length ++
      " block(s) on page " ++ u.page_id ++ "." := by
  simp only [executeSync, hu, handleUpdateSync, hs, hd, Bool.false_eq_true, if_false] at hr
  rcases happ : applyUpdateSync c p u sbs with ⟨res1, tr1⟩
  simp only [happ] at hr
  cases res1 with
  | error e => exact Except.noConfusion hr
  | ok unitv =>
    rcases hret : retrievePageUrlSync c u.page_id with ⟨res2, tr2⟩
    simp only [hret] at hr
    cases res2 with
    | error e => exact Except.noConfusion hr
    | ok url =>
      injection hr with hr
      subst hr
      exact summarizeReplaceNoProps p u sbs hm hp hn

/-- Witness for C2 (amended): the amended statement applied to the concrete
replace-mode request of one block on page `page-99`. -/
theorem replace_summary_amended_witness :
    resultReplace.summary =
      "Replaced content with " ++ toString oneQuoteBlock.length ++
        " block(s) on page " ++ "page-99" ++ "." :=
  replace_summary_amended demoClient payloadReplace ⟨"page-99", "replace"⟩ rfl rfl rfl rfl
    oneQuoteBlock rfl (by decide) resultReplace rfl

/-- Counterexample for C3: on a request supplying both `parent` and `update`,
`_run` raises `NotionConfigurationError` while `_arun` lets the pydantic
`ValidationError` propagate — the two paths do not raise the same error
class. -/
theorem async_sync_divergence_counterexample :
    runTool demoClient bothRaw =
      (.error (.configError
        "Provide either parent for create or update instructions, not both."), []) ∧
    arunTool demoClient bothRaw =
      (.error (.validationError
        "Provide either parent for create or update instructions, not both."), []) ∧
    ToolError.configError
        "Provide either parent for create or update instructions, not both." ≠
      ToolError.validationError
        "Provide either parent for create or update instructions, not both." :=
  ⟨rfl, rfl, fun h => ToolError.noConfusion h⟩

/-- C3 (amended): the asynchronous execution path produces exactly the same
result and Client Adapter call trace as the synchronous one for every coerced
payload, and `_arun` agrees with `_run` on every request whose shape passes
validation; on an invalid request shape, however, `_run` raises
`NotionConfigurationError` while `_arun` propagates the pydantic
`ValidationError`. -/
theorem async_sync_equiv_amended :
    (∀ c p, executeSync c p = executeAsync c p) ∧
    (∀ (c : ClientBehavior) (raw : RawWriteInput) (p : NotionWriteInput),
      coercePayload raw = .ok p → runTool c raw = arunTool c raw) := by
  constructor
  · intro c p
    rfl
  · intro c raw p h
    simp only [runTool, arunTool, h]
    rfl

/-- Witness for C3 (amended): a valid append-mode request runs identically
through the synchronous and asynchronous paths. -/
theorem async_sync_equiv_amended_witness :
    runTool demoClient appendRaw = arunTool demoClient appendRaw :=
  async_sync_equiv_amended.2 demoClient appendRaw appendPayload rfl

/-- Every error escaping `_apply_update_sync` is a wrapped `ToolExecutionError`. -/
theorem applyUpdateErrorShape (c : ClientBehavior) (p : NotionWriteInput)
    (u : NotionUpdateInstruction) (b : RawBlockList) (e : ToolError) (tr : List ApiCall)
    (h : applyUpdateSync c p u b = (.error e, tr)) :
    ∃ m, e = .toolExecutionError m := by
  simp only [applyUpdateSync] at h
  by_cases hp : propsTruthy p.properties
  · rw [if_pos hp] at h
    cases hup : c.updateResult u.page_id (p.properties.getD []) with
    | error ce =>
      simp only [hup] at h
      injection h with h1 h2
      injection h1 with h1
      subst h1
      exact ⟨_, rfl⟩
    | ok resp =>
      simp only [hup] at h
      by_cases hb : (!b.isNil) = true
      · rw [if_pos hb] at h
        cases hap : c.appendResult u.page_id b
            (if u.mode = "replace" then some true else none) with
        | error ce2 =>
          simp only [hap] at h
          injection h with h1 h2
          injection h1 with h1
          subst h1
          exact ⟨_, rfl⟩
        | ok uv =>
          simp only [hap] at h
          injection h with h1 h2
          exact Except.noConfusion h1
      · rw [if_neg hb] at h
        injection h with h1 h2
        exact Except.noConfusion h1
  · rw [if_neg hp] at h
    dsimp only at h
    by_cases hb : (!b.isNil) = true
    · rw [if_pos hb] at h
      cases hap : c.appendResult u.page_id b
          (if u.mode = "replace" then some true else none) with
      | error ce2 =>
        simp only [hap] at h
        injection h with h1 h2
        injection h1 with h1
        subst h1
        exact ⟨_, rfl⟩
      | ok uv =>
        simp only [hap] at h
        injection h with h1 h2
        exact Except.noConfusion h1
    · rw [if_neg hb] at h
      injection h with h1 h2
      exact Except.noConfusion h1

/-- Every error escaping `_retrieve_page_url_sync` is a wrapped
`ToolExecutionError`. -/
theorem retrieveErrorShape (c : ClientBehavior) (pid : String) (e : ToolError)
    (tr : List ApiCall) (h : retrievePageUrlSync c pid = (.error e, tr)) :
    ∃ m, e = .toolExecutionError m := by
  rw [retrievePageUrlSync] at h
  cases hres : c.retrieveResult pid with
  | error ce =>
    simp only [hres] at h
    injection h with h1 h2
    injection h1 with h1
    subst h1
    exact ⟨_, rfl⟩
  | ok resp =>
    simp only [hres] at h
    injection h with h1 h2
    exact Except.noConfusion h1

/-- Every error raised by `_build_create_payload` is a configuration error. -/
theorem buildCreateErrorShape (p : NotionWriteInput) (b : RawBlockList) (e : ToolError)
    (h : buildCreatePayload p b = .error e) : ∃ m, e = .configError m := by
  simp only [buildCreatePayload] at h
  cases hp : p.parent with
  | none =>
    simp only [hp] at h
    injection h with h1
    exact ⟨_, h1.symm⟩
  | some par =>
    simp only [hp] at h
    cases ha : toApiPayload par with
    | error m =>
      simp only [ha] at h
      injection h with h1
      exact ⟨_, h1.symm⟩
    | ok pa =>
      simp only [ha] at h
      exact Except.noConfusion h

/-- Every error result of the synchronous execution path is either a
configuration error raised before any Client Adapter call (empty trace) or a
wrapped `ToolExecutionError`. -/
theorem executeSyncErrorShape (c : ClientBehavior) (p : NotionWriteInput)
    (err : ToolError) (tr : List ApiCall) (h : executeSync c p = (.error err, tr)) :
    (∃ m, err = .configError m ∧ tr = []) ∨ ∃ m, err = .toolExecutionError m := by
  rw [executeSync] at h
  cases hu : p.update with
  | some u =>
    simp only [hu] at h
    rw [handleUpdateSync] at h
    cases hs : sanitizeBlocksOpt p.blocks with
    | error m =>
      simp only [hs] at h
      injection h with h1 h2
      injection h1 with h1
      exact Or.inl ⟨m, h1.symm, h2.symm⟩
    | ok sbs =>
      simp only [hs] at h
      by_cases hd : p.is_dry_run = true
      · simp only [hd, eq_self_iff_true, if_true] at h
        injection h with h1 h2
        exact Except.noConfusion h1
      · have hd2 : p.is_dry_run = false := by revert hd; cases p.is_dry_run <;> simp
        simp only [hd2, Bool.false_eq_true, if_false] at h
        rcases happ : applyUpdateSync c p u sbs with ⟨res1, tr1⟩
        simp only [happ] at h
        cases res1 with
        | error e1 =>
          injection h with h1 h2
          injection h1 with h1
          subst h1
          exact Or.inr (applyUpdateErrorShape c p u sbs e1 tr1 happ)
        | ok uv =>
          rcases hret : retrievePageUrlSync c u.page_id with ⟨res2, tr2⟩
          simp only [hret] at h
          cases res2 with
          | error e2 =>
            injection h with h1 h2
            injection h1 with h1
            subst h1
            exact Or.inr (retrieveErrorShape c u.page_id e2 tr2 hret)
          | ok url =>
            injection h with h1 h2
            exact Except.noConfusion h1
  | none =>
    simp only [hu] at h
    cases hs : sanitizeBlocksOpt p.blocks with
    | error m =>
      simp only [hs] at h
      injection h with h1 h2
      injection h1 with h1
      exact Or.inl ⟨m, h1.symm, h2.symm⟩
    | ok sbs =>
      simp only [hs] at h
      cases hb : buildCreatePayload p sbs with
      | error e1 =>
        simp only [hb] at h
        injection h with h1 h2
        injection h1 with h1
        subst h1
        obtain ⟨m, hm⟩ := buildCreateErrorShape p sbs e1 hb
        exact Or.inl ⟨m, hm, h2.symm⟩
      | ok pr =>
        obtain ⟨cp, pk⟩ := pr
        simp only [hb] at h
        by_cases hd : p.is_dry_run = true
        · simp only [hd, eq_self_iff_true, if_true] at h
          injection h with h1 h2
          exact Except.noConfusion h1
        · have hd2 : p.is_dry_run = false := by revert hd; cases p.is_dry_run <;> simp
          simp only [hd2, Bool.false_eq_true, if_false] at h
          cases hcr : c.createResult cp with
          | error ce =>
            simp only [hcr] at h
            injection h with h1 h2
            injection h1 with h1
            subst h1
            exact Or.inr ⟨_, rfl⟩
          | ok resp =>
            simp only [hcr] at h
            injection h with h1 h2
            exact Except.noConfusion h1

/-- C7: a Client Adapter error is re-raised as a single tool-level error whose
message is `<Operation> failed: <original message>`, with ` (code <code>)` and
` [status <status>]` appended when the upstream error carries those (truthy)
fields; configuration errors pass through `_raise_tool_error` unchanged, and
every configuration error produced by the execution path is raised before any
Client Adapter call, while every wrapped error is a `ToolExecutionError`. -/
theorem tool_error_wrapping :
    (∀ (op msg cd : String) (st : Nat), cd ≠ "" → st ≠ 0 →
      raiseToolError op (.clientErr ⟨msg, some cd, some st⟩) =
        .toolExecutionError (op ++ " failed: " ++ msg ++ " (code " ++ cd ++ ")" ++
          " [status " ++ toString st ++ "]")) ∧
    (∀ op msg, raiseToolError op (.clientErr ⟨msg, none, none⟩) =
      .toolExecutionError (op ++ " failed: " ++ msg)) ∧
    (∀ op m, raiseToolError op (.config m) = .configError m) ∧
    (∀ (c : ClientBehavior) (p : NotionWriteInput) (err : ToolError) (tr : List ApiCall),
      executeSync c p = (.error err, tr) →
      (∃ m, err = .configError m ∧ tr = []) ∨ ∃ m, err = .toolExecutionError m) := by
  refine ⟨?_, ?_, ?_, executeSyncErrorShape⟩
  · intro op msg cd st hcd hst
    have h1 : strTruthy (some cd) = true := by simp [strTruthy, bne_iff_ne, hcd]
    have h2 : natTruthy (some st) = true := by simp [natTruthy, bne_iff_ne, hst]
    simp only [raiseToolError, h1, h2, if_true, optStr, Option.getD_some]
  · intro op msg
    simp only [raiseToolError, strTruthy, natTruthy, Bool.false_eq_true, if_false]
  · intro op m
    rfl

/-- Witness for C7: the wrapping applied at the concrete error of
`test_write_raise_tool_error_includes_code_status`. -/
theorem tool_error_wrapping_witness :
    raiseToolError "Create page" (.clientErr ⟨"boom", some "invalid_request", some 400⟩) =
      .toolExecutionError "Create page failed: boom (code invalid_request) [status 400]" :=
  (tool_error_wrapping.1 "Create page" "boom" "invalid_request" 400 (by decide)
    (by decide)).trans (by rfl)

/-- C8: request validation succeeds if and only if exactly one of
`parent`/`update` is present, an update request carries at least one of
`blocks`/`properties`, a database parent comes with `properties`, and a page
parent comes with a (truthy) `title` or `properties`; in particular a request
supplying both `parent` and `update` is rejected.  Any validation failure
surfaces from `_run` as a configuration error before any Client Adapter
call. -/
theorem write_input_validation (p : NotionWriteInput) :
    (validateOperation p = .ok () ↔
      ((p.parent.isSome = true ∧ p.update.isSome = false) ∨
        (p.parent.isSome = false ∧ p.update.isSome = true)) ∧
      (p.update.isSome = true → p.blocks.isSome = true ∨ p.properties.isSome = true) ∧
      (p.update.isSome = false →
        (parentDbTruthy p.parent = true → p.properties.isSome = true) ∧
        (parentPageTruthy p.parent = true → strTruthy p.title = false →
          p.properties.isSome = true))) ∧
    (∀ (c : ClientBehavior) (raw : RawWriteInput) (m : String),
      coercePayload raw = .error m → runTool c raw = (.error (.configError m), [])) := by
  constructor
  · cases hu : p.update <;> cases hpar : p.parent <;>
      cases hb : p.blocks <;> cases hprop : p.properties <;>
        simp [validateOperation, hu, hpar, hb, hprop, parentDbTruthy, parentPageTruthy] <;>
          first
          | tauto
          | (rename NotionPageParent => par
             cases hdb : strTruthy par.database_id <;>
               cases hpg : strTruthy par.page_id <;>
                 cases hti : strTruthy p.title <;>
                   simp_all)
  · intro c raw m h
    simp only [runTool, h]

/-- Witness for C8: the validation characterization applied at the concrete
valid append-mode request. -/
theorem write_input_validation_witness :
    validateOperation appendPayload = Except.ok () :=
  (write_input_validation appendPayload).1.mpr (by decide)
